import Mathlib

/-!
Verification of the network-share synchronization and archive-processing
engine (`test_framework/utils/packge.py`).

Python strings are embedded as `List Char` (`PyStr`); Python values that may
be either an `int` or a `str` (file sizes, defended against in the code) as
`PyVal`.  Stateful / effectful primitives (stat, exists, read, unlink,
extraction) are parameters of the translated functions, supplied as explicit
oracles, so that the control flow of the Python source is modelled exactly
while the host filesystem stays abstract.  Python exceptions are `Except`
errors; a caught exception is a matched `.error`.  Wall-clock timing fields
(`transfer_time`, `processing_time`, `total_time`) are carried but fixed to
`0`: the code only ever stores elapsed real time there and no claim concerns
them.
-/

namespace Packge

/-- Python `str`, embedded as a list of characters. -/
abbrev PyStr : Type := List Char

/-- Literal embedding of a Lean string as a `PyStr`. -/
def pstr (s : String) : PyStr := s.data

/-- A Python value that is either an `int` or a `str` (the loosely-typed
`size` field the filter defends against). -/
inductive PyVal where
  | int (n : Int)
  | str (s : PyStr)
deriving DecidableEq

/-- Python `str.lower()` (ASCII case folding, which is all the code relies on). -/
def pyLower (s : PyStr) : PyStr := s.map Char.toLower

/-- Python `str.lstrip('.')`: drop leading dots. -/
def pyLstripDot (s : PyStr) : PyStr := s.dropWhile (fun c => c = '.')

/-- Python `int(s)` on a string: optional sign followed by at least one digit
(surrounding whitespace / underscores, which never occur here, are not
modelled).  `none` models the raised `ValueError`. -/
def pyParseInt (s : PyStr) : Option Int :=
  let core : PyStr → Option Int := fun ds =>
    if ds = [] ∨ ¬ ds.all Char.isDigit then none
    else some (ds.foldl (fun acc c => acc * 10 + (c.toNat - '0'.toNat : Int)) 0)
  match s with
  | '-' :: rest => (core rest).map (fun n => -n)
  | '+' :: rest => core rest
  | _ => core s

/-- Coerce a `PyVal` size to an integer exactly as
`int(x) if isinstance(x, str) else x` does; `none` models the raised
`ValueError`/`TypeError` of a failing conversion. -/
def coerceSize : PyVal → Option Int
  | .int n => some n
  | .str s => pyParseInt s

/-- First index `≥ 0` (relative) at which `sub` occurs in `s`, scanning left
to right; `none` models Python's `-1`. -/
def pyFindAux (sub : PyStr) : PyStr → Nat → Option Nat
  | [], i => if sub = [] then some i else none
  | c :: rest, i =>
    if List.isPrefixOf sub (c :: rest) then some i else pyFindAux sub rest (i + 1)

/-- Python `s.find(sub, start)`: absolute index of the first occurrence of
`sub` at or after `start`; `none` models `-1`. -/
def pyFind (sub s : PyStr) (start : Nat) : Option Nat :=
  (pyFindAux sub (List.drop start s) 0).map (· + start)

/-- Python `sub in s` (substring containment). -/
def pyContains (sub s : PyStr) : Bool := (pyFindAux sub s 0).isSome

/-- Python `s.rfind(c)` for a single character: index of the last occurrence,
`none` for `-1`. -/
def pyRFindChar (c : Char) (s : PyStr) : Option Nat :=
  (List.range s.length).foldl
    (fun acc i => if s.get? i = some c then some i else acc) none

/-- Python `pathlib.PurePath(...).stem` on a bare filename: the name without its
suffix, where the suffix is `name[i:]` for the last dot at `0 < i < len-1`. -/
def pyStem (name : PyStr) : PyStr :=
  match pyRFindChar '.' name with
  | some i => if 0 < i ∧ i < name.length - 1 then List.take i name else name
  | none => name

/-- One splitting step of Python `s.split(sep)` (non-empty `sep`), with fuel
for structural recursion; only ever called with fuel `≥ s.length + 1`. -/
def pySplitSubFuel (sep : PyStr) : Nat → PyStr → List PyStr
  | 0, s => [s]
  | fuel + 1, s =>
    match pyFindAux sep s 0 with
    | none => [s]
    | some i => List.take i s :: pySplitSubFuel sep fuel (List.drop (i + sep.length) s)

/-- Python `s.split(sep)` for a non-empty separator. -/
def pySplitSub (sep s : PyStr) : List PyStr :=
  pySplitSubFuel sep (s.length + 1) s

/-- Glob matching in the style of `fnmatch` with `*` and `?` (character classes do not
occur in this repository's exclude patterns and are treated as literals),
with fuel for structural recursion; called with fuel `≥ |p| + |s| + 1`. -/
def globMatchFuel : Nat → PyStr → PyStr → Bool
  | 0, _, _ => false
  | _ + 1, [], s => s = []
  | fuel + 1, '*' :: ps, s =>
    globMatchFuel fuel ps s ||
      (match s with
       | [] => false
       | _ :: s' => globMatchFuel fuel ('*' :: ps) s')
  | fuel + 1, '?' :: ps, s =>
    match s with
    | [] => false
    | _ :: s' => globMatchFuel fuel ps s'
  | fuel + 1, p :: ps, s =>
    match s with
    | [] => false
    | c :: s' => p = c && globMatchFuel fuel ps s'

/-- Python `fnmatch.fnmatch` as used by the filter (both sides are lowercased by the
caller already; `fnmatch` lowercases again, a no-op here). -/
def fnmatch (s pat : PyStr) : Bool :=
  globMatchFuel (pat.length + s.length + 1) pat s

/-- Python `re.search(pattern, name, re.IGNORECASE)` viewed as a Boolean.  Modelled
for patterns without regex metacharacters (none occur in this repository):
there `re.search` coincides with case-insensitive substring containment.
Invalid-pattern handling (`re.error`) is likewise not modelled. -/
def regexSearchCI (pattern name : PyStr) : Bool :=
  pyContains (pyLower pattern) (pyLower name)

-- ERROR TAXONOMY: exception classes are modelled as tagged error strings.

/-- Error payload: which exception class was raised, with its message. -/
structure PyErr where
  cls : PyStr
  msg : PyStr
deriving DecidableEq

def fileAccessError (m : PyStr) : PyErr := ⟨pstr "FileAccessError", m⟩
def zipProcessingError (m : PyStr) : PyErr := ⟨pstr "ZipProcessingError", m⟩

-- DATA MODEL (`FileInfo`, `TransferResult`, `TransferSummary`,
-- `ZipProcessingSummary`, `SyncConfig`).

/-- The `FileInfo` dataclass.  `size` is a `PyVal` because the dataclass does not
enforce `int` and the filter defends against `str` sizes. -/
structure FileInfo where
  name : PyStr
  path : PyStr
  size : PyVal
  modified_time : Int
  is_directory : Bool
  permissions : Option PyStr := none
deriving DecidableEq

/-- The `TransferResult` dataclass. -/
structure TransferResult where
  file_info : FileInfo
  success : Bool
  local_path : Option PyStr
  error_message : Option PyStr := none
  bytes_transferred : Int := 0
  transfer_time : Int := 0
deriving DecidableEq

/-- The `TransferSummary` dataclass. -/
structure TransferSummary where
  total_files : Int
  successful_files : Int
  failed_files : Int
  skipped_files : Int
  total_bytes : Int
  transferred_bytes : Int
  total_time : Int
  errors : List PyStr
deriving DecidableEq

/-- The `ZipProcessingSummary` dataclass. -/
structure ZipProcessingSummary where
  total_zip_files : Int
  processed_zip_files : Int
  failed_zip_files : Int
  extracted_files : Int
  merged_directories : List PyStr
  processing_time : Int
  errors : List PyStr
deriving DecidableEq

/-- The `SyncConfig` dataclass (numeric fields as `Int`, as Python ints). -/
structure SyncConfig where
  max_concurrent_transfers : Int := 5
  connection_timeout : Int := 30
  read_timeout : Int := 60
  retry_attempts : Int := 3
  retry_delay : Int := 1
  chunk_size : Int := 64 * 1024
  log_level : PyStr := pstr "INFO"
  verify_transfers : Bool := true
  create_backup : Bool := false
deriving DecidableEq

/-- Validation `SyncConfig.validate()`: `true` iff no `ValueError` is raised. -/
def SyncConfig.validateOk (c : SyncConfig) : Bool :=
  c.max_concurrent_transfers ≥ 1 &&
  c.retry_attempts ≥ 0 &&
  c.chunk_size ≥ 1024 &&
  (c.log_level ∈ [pstr "DEBUG", pstr "INFO", pstr "WARNING", pstr "ERROR", pstr "CRITICAL"])

-- FILE FILTER (`FileFilter.__init__`, `should_include`,
-- `_get_file_extension`, `_matches_exclude_patterns`).

/-- The `FileFilter` after `__init__` normalisation. -/
structure FileFilter where
  extensions : List PyStr := []
  max_size : Option Int := none
  exclude_patterns : List PyStr := []
  include_directories : Bool := true
  filename_prefixes : List PyStr := []
  filename_suffixes : List PyStr := []
deriving DecidableEq

/-- Constructor `FileFilter.__init__`: lowercases and dot-strips extensions, coerces
`max_size` (a failing conversion degrades to `None`), lowercases prefix and
suffix allow-lists. -/
def fileFilterInit (extensions : List PyStr) (max_size : Option PyVal)
    (exclude_patterns : List PyStr) (include_directories : Bool)
    (filename_prefixes filename_suffixes : List PyStr) : FileFilter where
  extensions := extensions.map (fun e => pyLstripDot (pyLower e))
  max_size := match max_size with
    | none => none
    | some v => coerceSize v
  exclude_patterns := exclude_patterns
  include_directories := include_directories
  filename_prefixes := filename_prefixes.map pyLower
  filename_suffixes := filename_suffixes.map pyLower

/-- Helper `FileFilter._get_file_extension`: substring after the last dot,
lowercased; empty when the name has no dot. -/
def getFileExtension (filename : PyStr) : PyStr :=
  if pyContains (pstr ".") filename then
    pyLower ((pySplitSub (pstr ".") filename).getLastD [])
  else []

/-- Helper `FileFilter._matches_exclude_patterns`: glob on lowercased name, regex
(`regex:`-tagged) on the name, or glob on the lowercased full path. -/
def matchesExcludePatterns (f : FileFilter) (filename filepath : PyStr) : Bool :=
  f.exclude_patterns.any (fun pattern =>
    fnmatch (pyLower filename) (pyLower pattern) ||
    (List.isPrefixOf (pstr "regex:") pattern &&
      regexSearchCI (List.drop 6 pattern) filename) ||
    fnmatch (pyLower filepath) (pyLower pattern))

/-- Python `'.'.join(name.split('.')[:-1])`: the filename with its extension
stripped, used by the suffix criterion. -/
def stripExtension (name : PyStr) : PyStr :=
  if pyContains (pstr ".") name then
    List.intercalate (pstr ".") ((pySplitSub (pstr ".") name).dropLast)
  else name

/-- Predicate `FileFilter.should_include`, translated clause by clause. -/
def shouldInclude (f : FileFilter) (fi : FileInfo) : Bool :=
  if fi.is_directory then
    if ¬ f.include_directories then false
    else ¬ matchesExcludePatterns f fi.name fi.path
  else
    -- size ceiling; a failed numeric conversion skips the size check
    let sizeExcluded : Bool :=
      match f.max_size with
      | none => false
      | some m =>
        match coerceSize fi.size with
        | none => false
        | some s => s > m
    if sizeExcluded then false
    else if f.extensions ≠ [] ∧ getFileExtension fi.name ∉ f.extensions then false
    else if f.filename_prefixes ≠ [] ∧
        ¬ f.filename_prefixes.any (fun p => List.isPrefixOf p (pyLower fi.name)) then false
    else if f.filename_suffixes ≠ [] ∧
        ¬ f.filename_suffixes.any (fun suf =>
            List.isSuffixOf suf (pyLower (stripExtension fi.name))) then false
    else if matchesExcludePatterns f fi.name fi.path then false
    else true

-- TRANSFER PATH (`FileTransferService.copy_file`, `_copy_file_with_progress`,
-- `copy_files` with its inner `copy_single_file` retry loop).

/-- A write of file content to a local path performed by the copy path. -/
structure WriteOp where
  path : PyStr
  content : List Nat
deriving DecidableEq

/-- Effect oracle for the copy path: `localExists` is `local_path.exists()`,
`remoteInfo` is `_get_file_info_from_path` (an `.error` is the
`FileAccessError` it raises), `readFile` is opening and reading the source
(an `.error` is an exception raised inside `_copy_file_with_progress`). -/
structure Env where
  localExists : PyStr → Bool
  remoteInfo : PyStr → Except PyErr FileInfo
  readFile : PyStr → Except PyErr (List Nat)

/-- The chunk loop of `_copy_file_with_progress`: reads `chunk_size` bytes at
a time and sums the chunk lengths (with `chunk_size ≤ 0`, Python's `read`
returns `b''` at once and the loop exits with `0`).  Fuel-structural; called
with fuel `= content.length`, enough since each step with positive
`chunkSize` consumes at least one byte. -/
def copyChunksFuel (chunkSize : Int) : Nat → List Nat → Int
  | _, [] => 0
  | 0, _ => 0
  | fuel + 1, content =>
    if chunkSize ≤ 0 then 0
    else (content.take chunkSize.toNat).length +
      copyChunksFuel chunkSize fuel (content.drop chunkSize.toNat)

/-- The `_copy_file_with_progress` byte count: the total returned by the chunk
loop (the destination receives the source content). -/
def copyChunks (chunkSize : Int) (content : List Nat) : Int :=
  copyChunksFuel chunkSize content.length content

/-- The `TransferResult` built when the target exists and overwrite is off. -/
def existsResult (fi : FileInfo) (localPath : PyStr) : TransferResult where
  file_info := fi
  success := false
  local_path := some localPath
  error_message := some (pstr "文件已存在且未设置覆盖")

/-- Translation of `FileTransferService.copy_file`.  Returns the result (or the exception
that escapes it) together with the file-content writes it performed.  The
`except` handler rebuilds the `FileInfo`; when that second
`_get_file_info_from_path` call itself raises, the exception escapes
`copy_file` — which is the only way `copy_file` raises. -/
def copyFile (cfg : SyncConfig) (env : Env) (remotePath localPath : PyStr)
    (overwrite : Bool) : Except PyErr TransferResult × List WriteOp :=
  if env.localExists localPath ∧ ¬ overwrite then
    match env.remoteInfo remotePath with
    | .ok fi => (.ok (existsResult fi localPath), [])
    | .error e => (.error e, [])
  else
    match env.remoteInfo remotePath with
    | .error e => (.error e, [])
    | .ok fi =>
      if fi.is_directory then
        (.ok { file_info := fi, success := true, local_path := some localPath,
               bytes_transferred := 0 }, [])
      else
        match env.readFile remotePath with
        | .error e =>
          -- exception inside the copy: the handler re-stats and records failure
          match env.remoteInfo remotePath with
          | .ok fi2 =>
            (.ok { file_info := fi2, success := false, local_path := some localPath,
                   error_message := some (pstr "复制文件失败 " ++ remotePath ++
                     pstr ": " ++ e.msg) }, [])
          | .error e2 => (.error e2, [])
        | .ok content =>
          (.ok { file_info := fi, success := true, local_path := some localPath,
                 bytes_transferred := copyChunks cfg.chunk_size content },
           [⟨localPath, content⟩])

/-- The error result recorded by `copy_single_file` after exhausting retries. -/
def retryFailResult (fi : FileInfo) (localPath : PyStr) (e : PyErr) : TransferResult where
  file_info := fi
  success := false
  local_path := some localPath
  error_message := some (pstr "重试失败: " ++ e.msg)

/-- The retry loop body of `copy_single_file`, iterating over the attempt
indices `range(retry_attempts)`: a returned result is appended once and the
loop breaks; a raised exception retries unless this was the last attempt, in
which case the `重试失败` result is appended. -/
def copyLoopAux (cfg : SyncConfig) (fi : FileInfo) (localPath : PyStr)
    (attemptCopy : Nat → Except PyErr TransferResult × List WriteOp) :
    List Nat → List TransferResult × List WriteOp
  | [] => ([], [])
  | a :: rest =>
    match attemptCopy a with
    | (.ok r, ws) => ([r], ws)
    | (.error e, ws) =>
      if (a : Int) < cfg.retry_attempts - 1 then
        let (rs, ws2) := copyLoopAux cfg fi localPath attemptCopy rest
        (rs, ws ++ ws2)
      else ([retryFailResult fi localPath e], ws)

/-- Task `copy_single_file`: the per-file task of `copy_files` (the semaphore only
bounds concurrency; the per-file record sequence is as in the loop). -/
def copySingleFile (cfg : SyncConfig) (fi : FileInfo) (localPath : PyStr)
    (attemptCopy : Nat → Except PyErr TransferResult × List WriteOp) :
    List TransferResult × List WriteOp :=
  copyLoopAux cfg fi localPath attemptCopy (List.range cfg.retry_attempts.toNat)

/-- Python `os.path.relpath(path, root)` for the case exercised here: a path lying
under `root` has the root prefix and its separator stripped; other paths are
returned unchanged. -/
def pyRelPath (path root : PyStr) : PyStr :=
  if List.isPrefixOf (root ++ pstr "\\") path then
    List.drop (root.length + 1) path
  else path

/-- Path join `local_base_path / relative_path`. -/
def pyJoin (base rel : PyStr) : PyStr := base ++ pstr "\\" ++ rel

/-- The local target path `copy_single_file` computes for an entry. -/
def localPathOf (shareRoot localBase : PyStr) (fi : FileInfo) : PyStr :=
  pyJoin localBase (pyRelPath fi.path shareRoot)

/-- The flat list of `TransferResult`s accumulated in `results` by
`copy_files`: one `copy_single_file` task per non-directory entry.
`attemptCopy fi lp a` is the outcome of the `a`-th `copy_file` call for
entry `fi` at local path `lp`. -/
def copyFilesResults (cfg : SyncConfig) (shareRoot localBase : PyStr)
    (fileList : List FileInfo)
    (attemptCopy : FileInfo → PyStr → Nat → Except PyErr TransferResult × List WriteOp) :
    List TransferResult :=
  ((fileList.filter (fun fi => !fi.is_directory)).map (fun fi =>
    (copySingleFile cfg fi (localPathOf shareRoot localBase fi)
      (attemptCopy fi (localPathOf shareRoot localBase fi))).1)).flatten

/-- All file-content writes performed by the batch. -/
def copyFilesWrites (cfg : SyncConfig) (shareRoot localBase : PyStr)
    (fileList : List FileInfo)
    (attemptCopy : FileInfo → PyStr → Nat → Except PyErr TransferResult × List WriteOp) :
    List WriteOp :=
  ((fileList.filter (fun fi => !fi.is_directory)).map (fun fi =>
    (copySingleFile cfg fi (localPathOf shareRoot localBase fi)
      (attemptCopy fi (localPathOf shareRoot localBase fi))).2)).flatten

/-- The Python `int(f.size) if isinstance(f.size, str) else f.size` used in
the `total_bytes` sum of `copy_files` (a genuinely unparseable string would
raise there; the summing code is only reached with coercible sizes, so the
failure case is mapped to `0` merely to keep the sum total). -/
def sizeAsInt (v : PyVal) : Int := (coerceSize v).getD 0

/-- Translation of `FileTransferService.copy_files`: the returned `TransferSummary`
(`total_time` is filled in by the caller; `skipped_files` is hard-coded 0). -/
def copyFiles (cfg : SyncConfig) (shareRoot localBase : PyStr)
    (fileList : List FileInfo)
    (attemptCopy : FileInfo → PyStr → Nat → Except PyErr TransferResult × List WriteOp) :
    TransferSummary :=
  let results := copyFilesResults cfg shareRoot localBase fileList attemptCopy
  { total_files := fileList.length
    successful_files := (results.filter (fun r => r.success)).length
    failed_files := (results.filter (fun r => !r.success)).length
    skipped_files := 0
    total_bytes := ((fileList.filter (fun fi => !fi.is_directory)).map
      (fun fi => sizeAsInt fi.size)).sum
    transferred_bytes := (results.map (fun r => r.bytes_transferred)).sum
    total_time := 0
    errors := results.filterMap (fun r => r.error_message) }

/-- The attempt oracle of the concrete batch: every attempt calls
`copy_file` against the (attempt-indexed) environment. -/
def concreteAttempt (cfg : SyncConfig) (envAt : Nat → Env) (overwrite : Bool)
    (fi : FileInfo) (lp : PyStr) (a : Nat) :
    Except PyErr TransferResult × List WriteOp :=
  copyFile cfg (envAt a) fi.path lp overwrite

-- FILE DISCOVERY (`FileDiscoveryService.discover_files`, `get_file_info`)
-- over an abstract filesystem tree walked with `os.walk` semantics
-- (default `onerror=None`: a listing failure is silently skipped).

/-- Metadata of one filesystem node; `statOk = false` means `os.stat` on it
raises (`PermissionError`/`OSError`). -/
structure RawNode where
  name : PyStr
  path : PyStr
  size : Int
  mtime : Int
  statOk : Bool
deriving DecidableEq

/-- Abstract filesystem tree.  `listable = false` on a directory means
`scandir`/`listdir` on it fails (an unreadable directory). -/
inductive PTree where
  | pfile (meta : RawNode)
  | pdir (meta : RawNode) (listable : Bool) (children : List PTree)

def PTree.meta : PTree → RawNode
  | .pfile m => m
  | .pdir m _ _ => m

def PTree.isDir : PTree → Bool
  | .pfile _ => false
  | .pdir _ _ _ => true

/-- Translation of `FileDiscoveryService.get_file_info` on a node: a failing `os.stat` is
wrapped into a raised `FileAccessError`. -/
def getFileInfoNode (t : PTree) : Except PyErr FileInfo :=
  if t.meta.statOk then
    .ok { name := t.meta.name, path := t.meta.path, size := .int t.meta.size,
          modified_time := t.meta.mtime, is_directory := t.isDir,
          permissions := some (pstr "644") }
  else .error (fileAccessError (pstr "获取文件信息失败 " ++ t.meta.path))

/-- Python `os.walk` (top-down, `onerror=None`) over the tree: the visited triples,
each as the directory's metadata with its children.  A non-directory root or
an unlistable directory yields nothing — the error is swallowed.  Fuel bounds
the recursion depth; callers pass fuel `≥` the tree height. -/
def osWalkFuel : Nat → PTree → List (RawNode × List PTree)
  | 0, _ => []
  | _ + 1, .pfile _ => []
  | fuel + 1, .pdir meta listable children =>
    if listable then
      (meta, children) ::
        (children.filter PTree.isDir).flatMap (fun c => osWalkFuel fuel c)
    else []

/-- Processing of one `os.walk` triple by `discover_files`: files first, then
directories, collecting filter-approved entries.  `get_file_info` raises
`FileAccessError`, which the inner `except (PermissionError, OSError)`
handlers do not catch, so it propagates. -/
def discoverTriple (filt : Option FileFilter) (children : List PTree) :
    Except PyErr (List FileInfo) := do
  let mut acc : List FileInfo := []
  for c in children.filter (fun c => !c.isDir) do
    let fi ← getFileInfoNode c
    if filt.all (fun f => shouldInclude f fi) then
      acc := acc ++ [fi]
  for c in children.filter PTree.isDir do
    let fi ← getFileInfoNode c
    if filt.all (fun f => shouldInclude f fi) then
      acc := acc ++ [fi]
  return acc

/-- Translation of `FileDiscoveryService.discover_files` on an abstract tree rooted at the
requested base path.  The outer `except (PermissionError, OSError)` never
fires: `os.walk` with `onerror=None` raises nothing, and `get_file_info`
raises `FileAccessError`, which that clause does not match either. -/
def discoverFiles (fuel : Nat) (root : PTree) (filt : Option FileFilter) :
    Except PyErr (List FileInfo) := do
  let mut files : List FileInfo := []
  for triple in osWalkFuel fuel root do
    let these ← discoverTriple filt triple.2
    files := files ++ these
  return files

-- ZIP PROCESSING (`ZipProcessingService.extract_all_zips`,
-- `_extract_vehicle_model`, `_copy_soc_to_mcu_directories` partition).

/-- One archive found by `rglob("*.zip")`, with the effect oracles of its
processing: `extractResult` is `_extract_zip_file` (`.ok count` or the
`ZipProcessingError` it raises), `unlinkOk` whether deleting the original
archive succeeds. -/
structure ZipEntry where
  path : PyStr
  stem : PyStr
  extractResult : Except PyErr Int
  unlinkOk : Bool := true

/-- Accumulator of the `extract_all_zips` loop. -/
structure ZipAcc where
  processed : Int := 0
  failed : Int := 0
  extracted : Int := 0
  directories : List PyStr := []
  errors : List PyStr := []
deriving DecidableEq

/-- The error string `extract_all_zips` records for a failing archive. -/
def zipFailMsg (z : ZipEntry) (e : PyErr) : PyStr :=
  pstr "处理ZIP文件失败 " ++ z.path ++ pstr ": " ++ e.msg

/-- One iteration of the `extract_all_zips` loop.  On successful extraction
the counters are bumped and the subdirectory recorded; a failing `unlink` of
the original archive is caught by the same `except`, so it *additionally*
counts the archive as failed. -/
def extractZipStep (outputDir : PyStr) (keepOriginal createSubdirs : Bool)
    (acc : ZipAcc) (z : ZipEntry) : ZipAcc :=
  match z.extractResult with
  | .error e => { acc with failed := acc.failed + 1,
                           errors := acc.errors ++ [zipFailMsg z e] }
  | .ok count =>
    let acc := { acc with
      processed := acc.processed + 1
      extracted := acc.extracted + count
      directories := if createSubdirs
        then acc.directories ++ [outputDir ++ pstr "\\" ++ z.stem]
        else acc.directories }
    if ¬ keepOriginal ∧ ¬ z.unlinkOk then
      { acc with failed := acc.failed + 1,
                 errors := acc.errors ++
                   [zipFailMsg z ⟨pstr "OSError", pstr "unlink"⟩] }
    else acc

/-- Translation of `ZipProcessingService.extract_all_zips`: fold the loop over the archives
found, then build the summary.  The whole loop body is inside
`except Exception`, so no exception escapes the batch. -/
def extractAllZips (zipFiles : List ZipEntry) (outputDir : PyStr)
    (keepOriginal createSubdirs : Bool) : ZipProcessingSummary :=
  let acc := zipFiles.foldl (extractZipStep outputDir keepOriginal createSubdirs) {}
  { total_zip_files := zipFiles.length
    processed_zip_files := acc.processed
    failed_zip_files := acc.failed
    extracted_files := acc.extracted
    merged_directories := acc.directories
    processing_time := 0
    errors := acc.errors }

/-- The fallback of `_extract_vehicle_model` for `category == "MCU"` when the
primary `VBF_ReleasePackage_{model}_MCU` convention does not apply. -/
def mcuFallback (name : PyStr) : PyStr :=
  if pyContains (pstr "_MCU") name then
    -- parts = name.split("_MCU"); len(parts) > 0 always holds
    let potential := (pySplitSub (pstr "_MCU") name).headD []
    if List.isPrefixOf (pstr "VBF_ReleasePackage_") potential then
      List.drop (pstr "VBF_ReleasePackage_").length potential
    else if List.isPrefixOf (pstr "VBF_") potential then
      List.drop 4 potential
    else potential
  else name

/-- Translation of `ZipProcessingService._extract_vehicle_model`.  For `"MCU"`: text between
`VBF_ReleasePackage_` and `_MCU`, falling back to the part before `_MCU`
(with known prefixes stripped), finally the raw stem.  For `"SOC"`: `SOC_` +
text between `VBF_` and `_SOC`, else `SOC_` + stem.  Default:
`{category}_{stem}`. -/
def extractVehicleModel (zipFilename category : PyStr) : PyStr :=
  let name := pyStem zipFilename
  if category = pstr "MCU" then
    if pyContains (pstr "VBF_ReleasePackage_") name ∧ pyContains (pstr "_MCU") name then
      -- find succeeds: guarded by the containment test
      let startIdx := (pyFind (pstr "VBF_ReleasePackage_") name 0).getD 0 +
        (pstr "VBF_ReleasePackage_").length
      match pyFind (pstr "_MCU") name startIdx with
      | some endIdx =>
        if startIdx < endIdx then List.drop startIdx (List.take endIdx name)
        else mcuFallback name
      | none => mcuFallback name
    else mcuFallback name
  else if category = pstr "SOC" then
    -- start_idx = name.find("VBF_") + len("VBF_"), inlined below
    if pyContains (pstr "VBF_") name ∧ pyContains (pstr "_SOC") name then
      match pyFind (pstr "_SOC") name
          ((pyFind (pstr "VBF_") name 0).getD 0 + (pstr "VBF_").length) with
      | some endIdx =>
        if (pyFind (pstr "VBF_") name 0).getD 0 + (pstr "VBF_").length < endIdx then
          pstr "SOC_" ++ List.drop
            ((pyFind (pstr "VBF_") name 0).getD 0 + (pstr "VBF_").length)
            (List.take endIdx name)
        else pstr "SOC_" ++ name
      | none => pstr "SOC_" ++ name
    else pstr "SOC_" ++ name
  else category ++ pstr "_" ++ name

/-- Python `Path(d).name`: final path component (after the last `\` or `/`). -/
def pathName (d : PyStr) : PyStr :=
  (d.foldl (fun acc c => if c = '\\' ∨ c = '/' then [] else acc ++ [c]) [])

/-- The SOC side of the partition in `_copy_soc_to_mcu_directories`. -/
def socDirectories (all : List PyStr) : List PyStr :=
  all.filter (fun d => List.isPrefixOf (pstr "SOC_") (pathName d))

/-- The MCU side of the partition in `_copy_soc_to_mcu_directories`:
everything whose name does not start with `SOC_`. -/
def mcuDirectories (all : List PyStr) : List PyStr :=
  all.filter (fun d => !List.isPrefixOf (pstr "SOC_") (pathName d))

-- ORCHESTRATOR (`WindowsFileSync.sync_and_process_zips` error boundary).

/-- Translation of `WindowsFileSync.sync_and_process_zips`: runs the sync step (whose raise
propagates), then, when `process_zips` is set, the archive step inside
`try/except Exception` — a failure there leaves `zip_summary = None` and the
transfer summary is returned unchanged. -/
def syncAndProcessZips (syncStep : Except PyErr TransferSummary)
    (processZips : Bool) (zipStep : Except PyErr ZipProcessingSummary) :
    Except PyErr (TransferSummary × Option ZipProcessingSummary) :=
  match syncStep with
  | .error e => .error e
  | .ok transferSummary =>
    if processZips then
      match zipStep with
      | .ok zipSummary => .ok (transferSummary, some zipSummary)
      | .error _ => .ok (transferSummary, none)
    else .ok (transferSummary, none)

-- SHARED HELPER LEMMAS AND SAMPLE VALUES

theorem prefixAppendSelf (l t : List Char) : List.isPrefixOf l (l ++ t) = true := by
  rw [ List.isPrefixOf_iff_prefix]
  exact List.prefix_append l t

theorem sum_map_one {α : Type} (l : List α) : (l.map (fun _ => (1 : Nat))).sum = l.length := by
  induction l with
  | nil => rfl
  | cons a as ih => simp [ih, Nat.add_comm]

/-- Lemma: `copyLoopAux` reads only `retry_attempts` from the configuration and is
pointwise in its attempt oracle. -/
theorem copyLoopAux_congr (cfg cfg' : SyncConfig) (fi : FileInfo) (lp : PyStr)
    (o o' : Nat → Except PyErr TransferResult × List WriteOp)
    (h : cfg'.retry_attempts = cfg.retry_attempts) (ho : ∀ a, o' a = o a) :
    ∀ l : List Nat, copyLoopAux cfg' fi lp o' l = copyLoopAux cfg fi lp o l := by
  intro l
  induction l with
  | nil => rfl
  | cons a rest ih => simp only [copyLoopAux, h, ho, ih]

/-- Lemma: `copyFile` reads only `chunk_size` from the configuration. -/
theorem copyFile_congr (cfg cfg' : SyncConfig) (env : Env) (rp lp : PyStr)
    (ow : Bool) (h : cfg'.chunk_size = cfg.chunk_size) :
    copyFile cfg' env rp lp ow = copyFile cfg env rp lp ow := by
  unfold copyFile
  simp only [h]

/-- Lemma: `copySingleFile` under the concrete per-attempt `copy_file` oracle
depends on the configuration only through `retry_attempts` and `chunk_size`. -/
theorem copySingleFile_congr (cfg cfg' : SyncConfig) (envAt : Nat → Env)
    (ow : Bool) (fi : FileInfo) (lp : PyStr)
    (hr : cfg'.retry_attempts = cfg.retry_attempts)
    (hc : cfg'.chunk_size = cfg.chunk_size) :
    copySingleFile cfg' fi lp (concreteAttempt cfg' envAt ow fi lp) =
      copySingleFile cfg fi lp (concreteAttempt cfg envAt ow fi lp) := by
  unfold copySingleFile
  rw [hr]
  exact copyLoopAux_congr cfg cfg' fi lp _ _ hr
    (fun a => copyFile_congr cfg cfg' (envAt a) fi.path lp ow hc) _

/-- A sample non-directory entry used by witnesses. -/
def sampleFile : FileInfo where
  name := pstr "a.zip"
  path := pstr "\\\\host\\share\\a.zip"
  size := .int 3
  modified_time := 0
  is_directory := false

/-- A sample directory entry used by witnesesses of directory cases. -/
def sampleDir : FileInfo where
  name := pstr "sub"
  path := pstr "\\\\host\\share\\sub"
  size := .int 0
  modified_time := 0
  is_directory := true

def sampleErr : PyErr := ⟨pstr "OSError", pstr "boom"⟩

/-- A successful sample result for witnesses. -/
def sampleOkResult : TransferResult where
  file_info := sampleFile
  success := true
  local_path := some (pstr "D:\\dst\\a.zip")
  bytes_transferred := 3

-- C10 ------------------------------------------------------------------

/-- C10: every output-directory name `_extract_vehicle_model` derives for the
SOC category starts with `SOC_`, in all of its naming branches, and any
directory whose final path component starts with `SOC_` lands on the SOC side
(and not the MCU side) of the partition used by
`_copy_soc_to_mcu_directories`. -/
theorem soc_names_prefixed_c10 :
    (∀ zipFilename : PyStr,
      List.isPrefixOf (pstr "SOC_") (extractVehicleModel zipFilename (pstr "SOC")) = true) ∧
    (∀ (all : List PyStr) (d : PyStr), d ∈ all →
      List.isPrefixOf (pstr "SOC_") (pathName d) = true →
      d ∈ socDirectories all ∧ d ∉ mcuDirectories all) := by
  constructor
  · intro zf
    unfold extractVehicleModel
    rw [if_neg (by decide), if_pos rfl]
    split
    · split
      · split
        · exact prefixAppendSelf _ _
        · exact prefixAppendSelf _ _
      · exact prefixAppendSelf _ _
    · exact prefixAppendSelf _ _
  · intro all d hmem hpre
    constructor
    · exact List.mem_filter.mpr ⟨hmem, hpre⟩
    · intro hc
      have h2 := (List.mem_filter.mp hc).2
      simp [hpre] at h2

/-- Witness for C10's second conjunct at a concrete directory list. -/
theorem soc_names_prefixed_c10_witness :
    pstr "SOC_P181" ∈ socDirectories [pstr "FX12-A2-M1", pstr "SOC_P181"] ∧
    pstr "SOC_P181" ∉ mcuDirectories [pstr "FX12-A2-M1", pstr "SOC_P181"] :=
  soc_names_prefixed_c10.2 [pstr "FX12-A2-M1", pstr "SOC_P181"] (pstr "SOC_P181")
    (by simp) (by decide)

-- C5 -------------------------------------------------------------------

/-- C5: in a combined sync-and-process call, an exception raised by the
archive post-processing step after a successful transfer is caught at the
orchestrator boundary: the call returns the already-computed transfer summary
unchanged, paired with an absent (`none`) archive summary. -/
theorem zip_failure_degrades_c5 (ts : TransferSummary) (e : PyErr) :
    syncAndProcessZips (.ok ts) true (.error e) = .ok (ts, none) := rfl

-- C9 -------------------------------------------------------------------

/-- C9: the `verify_transfers` and `create_backup` configuration flags have
no effect on the transfer path: two runs identical except for those flags
produce the same per-file results, the same summary, and the same
destination writes. -/
theorem flags_no_effect_c9 (cfg : SyncConfig) (v b : Bool) (envAt : Nat → Env)
    (shareRoot localBase : PyStr) (fileList : List FileInfo) (overwrite : Bool) :
    copyFiles { cfg with verify_transfers := v, create_backup := b }
        shareRoot localBase fileList
        (concreteAttempt { cfg with verify_transfers := v, create_backup := b }
          envAt overwrite) =
      copyFiles cfg shareRoot localBase fileList (concreteAttempt cfg envAt overwrite) ∧
    copyFilesResults { cfg with verify_transfers := v, create_backup := b }
        shareRoot localBase fileList
        (concreteAttempt { cfg with verify_transfers := v, create_backup := b }
          envAt overwrite) =
      copyFilesResults cfg shareRoot localBase fileList
        (concreteAttempt cfg envAt overwrite) ∧
    copyFilesWrites { cfg with verify_transfers := v, create_backup := b }
        shareRoot localBase fileList
        (concreteAttempt { cfg with verify_transfers := v, create_backup := b }
          envAt overwrite) =
      copyFilesWrites cfg shareRoot localBase fileList
        (concreteAttempt cfg envAt overwrite) := by
  have hsingle := copySingleFile_congr cfg
    { cfg with verify_transfers := v, create_backup := b } envAt overwrite
  have hres : copyFilesResults { cfg with verify_transfers := v, create_backup := b }
      shareRoot localBase fileList
      (concreteAttempt { cfg with verify_transfers := v, create_backup := b }
        envAt overwrite) =
      copyFilesResults cfg shareRoot localBase fileList
        (concreteAttempt cfg envAt overwrite) := by
    unfold copyFilesResults
    congr 1
    exact List.map_congr_left (fun fi _ => by rw [hsingle fi _ rfl rfl])
  have hws : copyFilesWrites { cfg with verify_transfers := v, create_backup := b }
      shareRoot localBase fileList
      (concreteAttempt { cfg with verify_transfers := v, create_backup := b }
        envAt overwrite) =
      copyFilesWrites cfg shareRoot localBase fileList
        (concreteAttempt cfg envAt overwrite) := by
    unfold copyFilesWrites
    congr 1
    exact List.map_congr_left (fun fi _ => by rw [hsingle fi _ rfl rfl])
  refine ⟨?_, hres, hws⟩
  unfold copyFiles
  rw [hres]

-- C1 -------------------------------------------------------------------

/-- C1: with `retry_attempts = 3`, a file whose `copy_file` call raises on
the first two attempts and returns a successful result on the third is
recorded with exactly one `TransferResult` — the final attempt's, so its
success flag and byte count are the third attempt's only. -/
theorem third_attempt_succeeds_c1 (cfg : SyncConfig) (fi : FileInfo) (lp : PyStr)
    (oracle : Nat → Except PyErr TransferResult × List WriteOp)
    (e0 e1 : PyErr) (w0 w1 w2 : List WriteOp) (r : TransferResult)
    (hcfg : cfg.retry_attempts = 3)
    (h0 : oracle 0 = (.error e0, w0)) (h1 : oracle 1 = (.error e1, w1))
    (h2 : oracle 2 = (.ok r, w2)) (_hs : r.success = true) :
    (copySingleFile cfg fi lp oracle).1 = [r] := by
  unfold copySingleFile
  rw [hcfg]
  show (copyLoopAux cfg fi lp oracle [0, 1, 2]).1 = [r]
  norm_num [copyLoopAux, h0, h1, h2, hcfg]

/-- Witness for C1: a concrete three-attempt oracle failing twice. -/
theorem third_attempt_succeeds_c1_witness :
    (copySingleFile { retry_attempts := 3 } sampleFile (pstr "D:\\dst\\a.zip")
      (fun a => if a = 2 then (.ok sampleOkResult, []) else (.error sampleErr, []))).1 =
      [sampleOkResult] :=
  third_attempt_succeeds_c1 { retry_attempts := 3 } sampleFile (pstr "D:\\dst\\a.zip")
    (fun a => if a = 2 then (.ok sampleOkResult, []) else (.error sampleErr, []))
    sampleErr sampleErr [] [] [] sampleOkResult rfl rfl rfl rfl rfl

-- C6 -------------------------------------------------------------------

/-- Generic filter partition: keeping and dropping a predicate split a
list's length. -/
theorem length_filter_add_length_filter_not {α : Type} (p : α → Bool) (l : List α) :
    (l.filter p).length + (l.filter (fun a => !p a)).length = l.length := by
  induction l with
  | nil => rfl
  | cons a as ih =>
    cases hp : p a
    · rw [List.filter_cons_of_neg (by simp [hp]), List.filter_cons_of_pos (by simp [hp]),
        List.length_cons, List.length_cons]
      omega
    · rw [List.filter_cons_of_pos (by simp [hp]), List.filter_cons_of_neg (by simp [hp]),
        List.length_cons, List.length_cons]
      omega

/-- Over the attempt indices `range' s n` with `s + n = retry_attempts`,
the retry loop records exactly one result. -/
theorem copyLoopAux_len_one (cfg : SyncConfig) (fi : FileInfo) (lp : PyStr)
    (o : Nat → Except PyErr TransferResult × List WriteOp) :
    ∀ (n s : Nat), s + n = cfg.retry_attempts.toNat → 1 ≤ n →
      (copyLoopAux cfg fi lp o (List.range' s n)).1.length = 1 := by
  intro n
  induction n with
  | zero => intro s _ h1; omega
  | succ m ih =>
    intro s hsum _
    rw [List.range'_succ]
    simp only [copyLoopAux]
    cases ho : o s with
    | mk res ws =>
      cases res with
      | ok r => simp
      | error e =>
        simp only []
        by_cases hlt : (s : Int) < cfg.retry_attempts - 1
        · rw [if_pos hlt]
          have hm : 1 ≤ m := by omega
          have := ih (s + 1) (by omega) hm
          cases hX : copyLoopAux cfg fi lp o (List.range' (s + 1) m) with
          | mk rs ws2 =>
            rw [hX] at this
            simpa using this
        · rw [if_neg hlt]
          simp

/-- With at least one configured attempt, every per-file task records
exactly one `TransferResult`. -/
theorem copySingleFile_len_one (cfg : SyncConfig) (fi : FileInfo) (lp : PyStr)
    (o : Nat → Except PyErr TransferResult × List WriteOp)
    (h : 1 ≤ cfg.retry_attempts) :
    (copySingleFile cfg fi lp o).1.length = 1 := by
  unfold copySingleFile
  rw [List.range_eq_range']
  exact copyLoopAux_len_one cfg fi lp o cfg.retry_attempts.toNat 0 (by omega) (by omega)

/-- Flattening per-element singleton lists preserves the element count. -/
theorem flatten_len_of_len_one {α β : Type} (P : α → List β) (l : List α)
    (h : ∀ a ∈ l, (P a).length = 1) : ((l.map P).flatten).length = l.length := by
  induction l with
  | nil => rfl
  | cons a as ih =>
    simp only [List.map_cons, List.flatten_cons, List.length_append, List.length_cons,
      h a (List.mem_cons_self a as), ih (fun x hx => h x (List.mem_cons_of_mem a hx))]
    omega

/-- C6 (amended): provided at least one retry attempt is configured
(`retry_attempts ≥ 1`; the default is 3), the batch copy records exactly one
`TransferResult` per non-directory entry, so the summary satisfies
`successful_files + failed_files = number of non-directory entries` and
`skipped_files = 0`.  With `retry_attempts = 0` — accepted by
`SyncConfig.validate()` — the loop body never runs and no result is recorded
(see the counterexample). -/
theorem one_result_per_entry_c6 (cfg : SyncConfig) (shareRoot localBase : PyStr)
    (fileList : List FileInfo)
    (attemptCopy : FileInfo → PyStr → Nat → Except PyErr TransferResult × List WriteOp)
    (h : 1 ≤ cfg.retry_attempts) :
    (copyFilesResults cfg shareRoot localBase fileList attemptCopy).length =
      (fileList.filter (fun fi => !fi.is_directory)).length ∧
    (copyFiles cfg shareRoot localBase fileList attemptCopy).successful_files +
      (copyFiles cfg shareRoot localBase fileList attemptCopy).failed_files =
      ((fileList.filter (fun fi => !fi.is_directory)).length : Int) ∧
    (copyFiles cfg shareRoot localBase fileList attemptCopy).skipped_files = 0 := by
  have hlen : (copyFilesResults cfg shareRoot localBase fileList attemptCopy).length =
      (fileList.filter (fun fi => !fi.is_directory)).length := by
    unfold copyFilesResults
    exact flatten_len_of_len_one _ _
      (fun fi _ => copySingleFile_len_one cfg fi _ _ h)
  refine ⟨hlen, ?_, rfl⟩
  show ((((copyFilesResults cfg shareRoot localBase fileList attemptCopy).filter
      (fun r => r.success)).length : Int) +
    (((copyFilesResults cfg shareRoot localBase fileList attemptCopy).filter
      (fun r => !r.success)).length : Int)) = _
  rw [← Nat.cast_add, length_filter_add_length_filter_not, hlen]

/-- Witness for C6's amended statement: a one-file batch under the default
configuration (`retry_attempts = 3`). -/
theorem one_result_per_entry_c6_witness :
    (copyFilesResults {} (pstr "\\\\host\\share") (pstr "D:\\dst") [sampleFile]
        (fun _ _ _ => (.error sampleErr, []))).length =
      ([sampleFile].filter (fun fi => !fi.is_directory)).length ∧
    (copyFiles {} (pstr "\\\\host\\share") (pstr "D:\\dst") [sampleFile]
        (fun _ _ _ => (.error sampleErr, []))).successful_files +
      (copyFiles {} (pstr "\\\\host\\share") (pstr "D:\\dst") [sampleFile]
        (fun _ _ _ => (.error sampleErr, []))).failed_files =
      (([sampleFile].filter (fun fi => !fi.is_directory)).length : Int) ∧
    (copyFiles {} (pstr "\\\\host\\share") (pstr "D:\\dst") [sampleFile]
        (fun _ _ _ => (.error sampleErr, []))).skipped_files = 0 :=
  one_result_per_entry_c6 {} (pstr "\\\\host\\share") (pstr "D:\\dst") [sampleFile]
    (fun _ _ _ => (.error sampleErr, [])) (by norm_num)

/-- A configuration with zero retries, which `validate()` accepts. -/
def cfgZeroRetries : SyncConfig := { retry_attempts := 0 }

/-- Counterexample to C6 as stated: with the valid configuration
`retry_attempts = 0` the batch records no result at all for its single
non-directory entry, so `successful_files + failed_files = 0 ≠ 1`. -/
theorem one_result_per_entry_c6_cex :
    SyncConfig.validateOk cfgZeroRetries = true ∧
    ¬ ((copyFiles cfgZeroRetries (pstr "\\\\host\\share") (pstr "D:\\dst")
          [sampleFile] (fun _ _ _ => (.error sampleErr, []))).successful_files +
        (copyFiles cfgZeroRetries (pstr "\\\\host\\share") (pstr "D:\\dst")
          [sampleFile] (fun _ _ _ => (.error sampleErr, []))).failed_files =
        (([sampleFile].filter (fun fi => !fi.is_directory)).length : Int)) := by
  constructor
  · decide
  · decide

-- C7 -------------------------------------------------------------------

/-- C7 (amended): with all four allow-list criteria empty and no exclude
pattern matching, `should_include` returns true — for file entries
unconditionally, and for directory entries provided the
`include_directories` flag is set (a directory with
`include_directories = false` is excluded regardless, see the
counterexample). -/
theorem empty_allowlists_include_c7 (f : FileFilter) (fi : FileInfo)
    (hext : f.extensions = []) (hmax : f.max_size = none)
    (hpre : f.filename_prefixes = []) (hsuf : f.filename_suffixes = [])
    (hexc : matchesExcludePatterns f fi.name fi.path = false)
    (hdir : fi.is_directory = true → f.include_directories = true) :
    shouldInclude f fi = true := by
  unfold shouldInclude
  cases hd : fi.is_directory with
  | false => simp [hd, hext, hmax, hpre, hsuf, hexc]
  | true => simp [hd, hexc, hdir hd]

/-- Witness for C7's amended statement: the all-default filter includes a
plain file. -/
theorem empty_allowlists_include_c7_witness :
    shouldInclude {} sampleFile = true :=
  empty_allowlists_include_c7 {} sampleFile rfl rfl rfl rfl (by decide)
    (fun _ => rfl)

/-- An otherwise-empty filter that opts out of directories. -/
def dirsExcludedFilter : FileFilter := { include_directories := false }

/-- Counterexample to C7 as stated: all four allow-lists empty, no exclude
pattern matches, yet a directory entry is rejected because
`include_directories` is false. -/
theorem empty_allowlists_include_c7_cex :
    dirsExcludedFilter.extensions = [] ∧ dirsExcludedFilter.max_size = none ∧
    dirsExcludedFilter.filename_prefixes = [] ∧
    dirsExcludedFilter.filename_suffixes = [] ∧
    matchesExcludePatterns dirsExcludedFilter sampleDir.name sampleDir.path = false ∧
    shouldInclude dirsExcludedFilter sampleDir = false := by
  decide

-- C8 -------------------------------------------------------------------

/-- C8: a configured max-size ceiling `N` excludes a file of size `N + 1`
and (with the other criteria passing) includes a file of size exactly `N`;
and a file whose size is a non-numeric string makes the size check a no-op —
`should_include` then behaves exactly as with no ceiling configured, the
other criteria still applying. -/
theorem size_boundary_c8 :
    (∀ (f : FileFilter) (fi : FileInfo) (N : Int), f.max_size = some N →
      fi.is_directory = false → fi.size = .int (N + 1) →
      shouldInclude f fi = false) ∧
    (∀ (f : FileFilter) (fi : FileInfo) (N : Int), f.max_size = some N →
      fi.is_directory = false → fi.size = .int N → f.extensions = [] →
      f.filename_prefixes = [] → f.filename_suffixes = [] →
      matchesExcludePatterns f fi.name fi.path = false →
      shouldInclude f fi = true) ∧
    (∀ (f : FileFilter) (fi : FileInfo) (s : PyStr), fi.is_directory = false →
      fi.size = .str s → pyParseInt s = none →
      shouldInclude f fi = shouldInclude { f with max_size := none } fi) := by
  refine ⟨?_, ?_, ?_⟩
  · intro f fi N hmax hd hsz
    unfold shouldInclude
    simp only [hd, hmax, hsz, coerceSize]
    rw [if_neg (by simp)]
    rw [if_pos (by simp only [decide_eq_true_eq]; omega)]
  · intro f fi N hmax hd hsz hext hpre hsuf hexc
    unfold shouldInclude
    simp [hd, hmax, hsz, coerceSize, hext, hpre, hsuf, hexc]
  · intro f fi s hd hsz hparse
    unfold shouldInclude
    simp only [hd, hsz, coerceSize, hparse]
    cases hms : f.max_size with
    | none => rfl
    | some m => rfl

/-- A filter with only a 3-byte ceiling configured. -/
def sizeFilter : FileFilter := { max_size := some 3 }

/-- Witness for C8 at the concrete boundary `N = 3`. -/
theorem size_boundary_c8_witness :
    shouldInclude sizeFilter { sampleFile with size := .int 4 } = false ∧
    shouldInclude sizeFilter sampleFile = true ∧
    shouldInclude sizeFilter { sampleFile with size := .str (pstr "big") } =
      shouldInclude { sizeFilter with max_size := none }
        { sampleFile with size := .str (pstr "big") } :=
  ⟨size_boundary_c8.1 sizeFilter _ 3 rfl rfl rfl,
   size_boundary_c8.2.1 sizeFilter sampleFile 3 rfl rfl rfl rfl rfl rfl (by decide),
   size_boundary_c8.2.2 sizeFilter _ (pstr "big") rfl rfl (by decide)⟩

-- C3 -------------------------------------------------------------------

/-- When the local target already exists and overwrite is off, a per-file
task makes a single attempt, records the one "already exists" failure and
writes nothing. -/
theorem copySingleFile_exists_only (cfg : SyncConfig) (env : Env) (fi g : FileInfo)
    (lp : PyStr) (h1 : 1 ≤ cfg.retry_attempts)
    (hex : env.localExists lp = true) (hg : env.remoteInfo fi.path = .ok g) :
    copySingleFile cfg fi lp (concreteAttempt cfg (fun _ => env) false fi lp) =
      ([existsResult g lp], []) := by
  have hcf : ∀ a, concreteAttempt cfg (fun _ => env) false fi lp a =
      (.ok (existsResult g lp), []) := by
    intro a
    unfold concreteAttempt copyFile
    rw [if_pos ⟨hex, by simp⟩, hg]
  unfold copySingleFile
  obtain ⟨k, hk⟩ : ∃ k, cfg.retry_attempts.toNat = k + 1 :=
    ⟨cfg.retry_attempts.toNat - 1, by omega⟩
  rw [hk, List.range_succ_eq_map]
  unfold copyLoopAux
  rw [hcf 0]

/-- C3: a second `syncOnly`-style batch run with `overwrite = false` over an
already-populated destination (every non-directory target exists, the
destination not cleared) yields zero successful transfers, every
non-directory entry recorded as the failed "already exists"
(`文件已存在且未设置覆盖`) outcome, and performs no file-content write — the
existing local files are untouched. -/
theorem second_run_all_exist_c3 (cfg : SyncConfig) (env : Env)
    (shareRoot localBase : PyStr) (fileList : List FileInfo)
    (hretry : 1 ≤ cfg.retry_attempts)
    (hex : ∀ fi ∈ fileList, fi.is_directory = false →
      env.localExists (localPathOf shareRoot localBase fi) = true)
    (hinfo : ∀ fi ∈ fileList, fi.is_directory = false →
      ∃ g, env.remoteInfo fi.path = .ok g) :
    (copyFiles cfg shareRoot localBase fileList
        (concreteAttempt cfg (fun _ => env) false)).successful_files = 0 ∧
    (copyFiles cfg shareRoot localBase fileList
        (concreteAttempt cfg (fun _ => env) false)).failed_files =
      ((fileList.filter (fun fi => !fi.is_directory)).length : Int) ∧
    (∀ r ∈ copyFilesResults cfg shareRoot localBase fileList
        (concreteAttempt cfg (fun _ => env) false),
      r.success = false ∧ r.error_message = some (pstr "文件已存在且未设置覆盖")) ∧
    copyFilesWrites cfg shareRoot localBase fileList
      (concreteAttempt cfg (fun _ => env) false) = [] := by
  have key : ∀ fi ∈ fileList.filter (fun fi => !fi.is_directory), ∃ g,
      copySingleFile cfg fi (localPathOf shareRoot localBase fi)
        (concreteAttempt cfg (fun _ => env) false fi
          (localPathOf shareRoot localBase fi)) =
      ([existsResult g (localPathOf shareRoot localBase fi)], []) := by
    intro fi hfi
    obtain ⟨hmem, hnd⟩ := List.mem_filter.mp hfi
    have hnd' : fi.is_directory = false := by
      cases h : fi.is_directory
      · rfl
      · rw [h] at hnd; exact absurd hnd (by simp)
    obtain ⟨g, hg⟩ := hinfo fi hmem hnd'
    exact ⟨g, copySingleFile_exists_only cfg env fi g _ hretry (hex fi hmem hnd') hg⟩
  have hprops : ∀ r ∈ copyFilesResults cfg shareRoot localBase fileList
      (concreteAttempt cfg (fun _ => env) false),
      r.success = false ∧ r.error_message = some (pstr "文件已存在且未设置覆盖") := by
    intro r hr
    unfold copyFilesResults at hr
    obtain ⟨rl, hrl, hrmem⟩ := List.mem_flatten.mp hr
    obtain ⟨fi, hfi, hfeq⟩ := List.mem_map.mp hrl
    obtain ⟨g, hg⟩ := key fi hfi
    rw [← hfeq, hg] at hrmem
    simp only [List.mem_singleton] at hrmem
    rw [hrmem]
    exact ⟨rfl, rfl⟩
  have hlen : (copyFilesResults cfg shareRoot localBase fileList
      (concreteAttempt cfg (fun _ => env) false)).length =
      (fileList.filter (fun fi => !fi.is_directory)).length := by
    unfold copyFilesResults
    exact flatten_len_of_len_one _ _
      (fun fi hfi => by obtain ⟨g, hg⟩ := key fi hfi; rw [hg]; rfl)
  refine ⟨?_, ?_, hprops, ?_⟩
  · show (((copyFilesResults cfg shareRoot localBase fileList
        (concreteAttempt cfg (fun _ => env) false)).filter
        (fun r => r.success)).length : Int) = 0
    rw [List.filter_eq_nil_iff.mpr (fun r hr => by simp [(hprops r hr).1])]
    rfl
  · show (((copyFilesResults cfg shareRoot localBase fileList
        (concreteAttempt cfg (fun _ => env) false)).filter
        (fun r => !r.success)).length : Int) = _
    rw [List.filter_eq_self.mpr (fun r hr => by simp [(hprops r hr).1]), hlen]
  · unfold copyFilesWrites
    refine List.flatten_eq_nil_iff.mpr ?_
    intro ws hws
    obtain ⟨fi, hfi, hfeq⟩ := List.mem_map.mp hws
    obtain ⟨g, hg⟩ := key fi hfi
    rw [← hfeq, hg]

/-- An environment in which every local target exists and every remote stat
succeeds — the second-run scenario. -/
def envAllExist : Env where
  localExists := fun _ => true
  remoteInfo := fun _ => .ok sampleFile
  readFile := fun _ => .ok []

/-- Witness for C3: a one-file second run against `envAllExist`. -/
theorem second_run_all_exist_c3_witness :
    (copyFiles {} (pstr "\\\\host\\share") (pstr "D:\\dst") [sampleFile]
        (concreteAttempt {} (fun _ => envAllExist) false)).successful_files = 0 ∧
    (copyFiles {} (pstr "\\\\host\\share") (pstr "D:\\dst") [sampleFile]
        (concreteAttempt {} (fun _ => envAllExist) false)).failed_files =
      (([sampleFile].filter (fun fi => !fi.is_directory)).length : Int) ∧
    (∀ r ∈ copyFilesResults {} (pstr "\\\\host\\share") (pstr "D:\\dst") [sampleFile]
        (concreteAttempt {} (fun _ => envAllExist) false),
      r.success = false ∧ r.error_message = some (pstr "文件已存在且未设置覆盖")) ∧
    copyFilesWrites {} (pstr "\\\\host\\share") (pstr "D:\\dst") [sampleFile]
      (concreteAttempt {} (fun _ => envAllExist) false) = [] :=
  second_run_all_exist_c3 {} envAllExist (pstr "\\\\host\\share") (pstr "D:\\dst")
    [sampleFile] (by norm_num) (fun _ _ _ => rfl) (fun _ _ _ => ⟨sampleFile, rfl⟩)

-- C4 -------------------------------------------------------------------

/-- Whether an archive's extraction succeeds. -/
def isOkZip (z : ZipEntry) : Bool :=
  match z.extractResult with
  | .ok _ => true
  | .error _ => false

/-- The error strings the `extract_all_zips` loop records for the failing
archives, in order. -/
def zipErrorsOf (zs : List ZipEntry) : List PyStr :=
  zs.filterMap (fun z =>
    match z.extractResult with
    | .error e => some (zipFailMsg z e)
    | .ok _ => none)

/-- Shape of the `extract_all_zips` fold when every successfully extracted
archive's original can be deleted: processed counts the good archives,
failed counts the corrupt ones, and the error list collects exactly the
corrupt archives' messages. -/
theorem extractZips_fold_shape (out : PyStr) (keep sub : Bool) :
    ∀ (zs : List ZipEntry) (acc : ZipAcc),
      (∀ z ∈ zs, isOkZip z = true → z.unlinkOk = true) →
      (zs.foldl (extractZipStep out keep sub) acc).processed =
        acc.processed + ((zs.filter isOkZip).length : Int) ∧
      (zs.foldl (extractZipStep out keep sub) acc).failed =
        acc.failed + ((zs.filter (fun z => !isOkZip z)).length : Int) ∧
      (zs.foldl (extractZipStep out keep sub) acc).errors =
        acc.errors ++ zipErrorsOf zs := by
  intro zs
  induction zs with
  | nil => intro acc _; simp [zipErrorsOf]
  | cons z zs ih =>
    intro acc hun
    have hz := hun z (List.mem_cons_self z zs)
    have hrest := ih (extractZipStep out keep sub acc z)
      (fun w hw => hun w (List.mem_cons_of_mem z hw))
    cases hex : z.extractResult with
    | error e =>
      have hok : isOkZip z = false := by unfold isOkZip; rw [hex]
      have hstep : extractZipStep out keep sub acc z =
          { acc with failed := acc.failed + 1,
                     errors := acc.errors ++ [zipFailMsg z e] } := by
        unfold extractZipStep; rw [hex]
      rw [hstep] at hrest
      obtain ⟨hp, hf, he⟩ := hrest
      rw [List.foldl_cons, hstep]
      refine ⟨?_, ?_, ?_⟩
      · rw [hp, List.filter_cons_of_neg (by simp [hok])]
      · rw [hf, List.filter_cons_of_pos (by simp [hok]), List.length_cons]
        show acc.failed + 1 + _ = _
        push_cast
        ring
      · rw [he]
        have hzz : zipErrorsOf (z :: zs) = zipFailMsg z e :: zipErrorsOf zs := by
          simp only [zipErrorsOf, List.filterMap_cons, hex]
        rw [hzz]
        show (acc.errors ++ [zipFailMsg z e]) ++ zipErrorsOf zs = _
        rw [List.append_assoc]
        rfl
    | ok c =>
      have hok : isOkZip z = true := by unfold isOkZip; rw [hex]
      have hstep : extractZipStep out keep sub acc z =
          { acc with
            processed := acc.processed + 1
            extracted := acc.extracted + c
            directories := if sub
              then acc.directories ++ [out ++ pstr "\\" ++ z.stem]
              else acc.directories } := by
        unfold extractZipStep
        rw [hex]
        simp [hz hok]
      rw [hstep] at hrest
      obtain ⟨hp, hf, he⟩ := hrest
      rw [List.foldl_cons, hstep]
      refine ⟨?_, ?_, ?_⟩
      · rw [hp, List.filter_cons_of_pos (by simp [hok]), List.length_cons]
        show acc.processed + 1 + _ = _
        push_cast
        ring
      · rw [hf, List.filter_cons_of_neg (by simp [hok])]
      · rw [he]
        have hzz : zipErrorsOf (z :: zs) = zipErrorsOf zs := by
          simp only [zipErrorsOf, List.filterMap_cons, hex]
        rw [hzz]

/-- C4: a batch of three archives of which exactly one is corrupt (and the
good ones' originals can be deleted) yields `total_zip_files = 3`,
`processed_zip_files = 2`, `failed_zip_files = 1`, with the corrupt
archive's error recorded in the summary's error list; the loop's
`except` swallows the failure, so no exception leaves the batch (the
function totally returns this summary). -/
theorem corrupt_one_of_three_c4 (zs : List ZipEntry) (out : PyStr)
    (keep sub : Bool) (z : ZipEntry) (e : PyErr)
    (hlen : zs.length = 3)
    (hfail : (zs.filter (fun w => !isOkZip w)).length = 1)
    (hunlink : ∀ w ∈ zs, isOkZip w = true → w.unlinkOk = true)
    (hz : z ∈ zs) (hze : z.extractResult = .error e) :
    (extractAllZips zs out keep sub).total_zip_files = 3 ∧
    (extractAllZips zs out keep sub).processed_zip_files = 2 ∧
    (extractAllZips zs out keep sub).failed_zip_files = 1 ∧
    zipFailMsg z e ∈ (extractAllZips zs out keep sub).errors := by
  have hshape := extractZips_fold_shape out keep sub zs {} hunlink
  have hpart := length_filter_add_length_filter_not isOkZip zs
  unfold extractAllZips
  refine ⟨by rw [hlen]; rfl, ?_, ?_, ?_⟩
  · show (zs.foldl (extractZipStep out keep sub) {}).processed = 2
    rw [hshape.1]
    have : (zs.filter isOkZip).length = 2 := by omega
    rw [this]
    rfl
  · show (zs.foldl (extractZipStep out keep sub) {}).failed = 1
    rw [hshape.2.1, hfail]
    rfl
  · show zipFailMsg z e ∈ (zs.foldl (extractZipStep out keep sub) {}).errors
    rw [hshape.2.2]
    refine List.mem_append_right _ ?_
    exact List.mem_filterMap.mpr ⟨z, hz, by rw [hze]⟩

/-- Three concrete archives for the C4 witness; the middle one is corrupt. -/
def zipGoodA : ZipEntry := ⟨pstr "a.zip", pstr "a", .ok 2, true⟩

def zipCorrupt : ZipEntry :=
  ⟨pstr "b.zip", pstr "b", .error (zipProcessingError (pstr "无效的ZIP文件")), true⟩

def zipGoodC : ZipEntry := ⟨pstr "c.zip", pstr "c", .ok 5, true⟩

/-- Witness for C4 on the concrete three-archive batch. -/
theorem corrupt_one_of_three_c4_witness :
    (extractAllZips [zipGoodA, zipCorrupt, zipGoodC] (pstr "D:\\out") false true).total_zip_files = 3 ∧
    (extractAllZips [zipGoodA, zipCorrupt, zipGoodC] (pstr "D:\\out") false true).processed_zip_files = 2 ∧
    (extractAllZips [zipGoodA, zipCorrupt, zipGoodC] (pstr "D:\\out") false true).failed_zip_files = 1 ∧
    zipFailMsg zipCorrupt (zipProcessingError (pstr "无效的ZIP文件")) ∈
      (extractAllZips [zipGoodA, zipCorrupt, zipGoodC] (pstr "D:\\out") false true).errors :=
  corrupt_one_of_three_c4 [zipGoodA, zipCorrupt, zipGoodC] (pstr "D:\\out")
    false true zipCorrupt (zipProcessingError (pstr "无效的ZIP文件"))
    rfl (by decide) (by decide) (List.Mem.tail _ (List.Mem.head _)) rfl

-- C2 -------------------------------------------------------------------

/-- An accessible file in the sample share. -/
def nodeA : RawNode :=
  ⟨pstr "a.txt", pstr "\\\\host\\share\\a.txt", 3, 0, true⟩

/-- A file whose `os.stat` raises (`PermissionError`). -/
def nodeB : RawNode :=
  ⟨pstr "b.txt", pstr "\\\\host\\share\\b.txt", 4, 0, false⟩

def rootMeta : RawNode := ⟨pstr "share", pstr "\\\\host\\share", 0, 0, true⟩

/-- A listable root containing one accessible and one inaccessible file. -/
def badRoot : PTree := .pdir rootMeta true [.pfile nodeA, .pfile nodeB]

/-- A fully unreadable root (its listing fails), containing a file. -/
def lockedRoot : PTree := .pdir rootMeta false [.pfile nodeA]

/-- C2 divergence: `get_file_info` wraps stat failures into
`FileAccessError`, which the inner `except (PermissionError, OSError)`
handlers of `discover_files` do not match, so a single inaccessible
sub-entry aborts the whole discovery with `FileAccessError` instead of being
skipped; and `os.walk` with its default `onerror=None` swallows the listing
failure of a fully unreadable root, so discovery silently returns the empty
list instead of raising `FileAccessError`.  Both halves are the opposite of
the claimed behaviour. -/
theorem discover_divergence_c2 :
    discoverFiles 2 badRoot none =
      .error (fileAccessError (pstr "获取文件信息失败 " ++ nodeB.path)) ∧
    discoverFiles 2 lockedRoot none = .ok [] := by
  constructor
  · rfl
  · rfl

end Packge
